import Mathlib

/-!
Shallow embedding of the call-negotiation core of the riverside-fe repository
(`src/context/CallContext.tsx`).  The file holds two variants of the call
provider, mirrored from the two variants present in the source file:

* variant 1 (explicit-initiate): the main `CallProvider` with ref-based media
  state, a loopback guard on inbound messages (`from == self` dropped), and
  per-handler try/catch blocks that only log;
* variant 2 (auto-negotiate): the second `CallProvider`, whose inbound
  dispatch is guarded by the `isInitiator` role flag, whose
  `onnegotiationneeded` handler emits offers only for the initiator, and whose
  `createSession`/`joinSession` catch failures and reset `callState` to an
  error snapshot.

Device tracks and media streams are mutable shared objects in the browser;
they are modelled by a heap (`MediaHeap`) holding every track ever acquired
(keyed by an allocation id) and every stream (keyed likewise), so that track
mutation through one alias is visible through all of them and so that "every
acquired track" is a meaningful quantification.  Asynchronous environment
outcomes (getUserMedia, getDisplayMedia, the REST session service, payload
validity of inbound SDP/candidates) are passed as explicit parameters.
-/

namespace Riverside

/-- Kind of a `MediaStreamTrack` (`track.kind`). -/
inductive TrackKind where
  | audio
  | video
deriving DecidableEq, Repr

/-- A device track.  `enabled` is the `track.enabled` flag, `ended` the
platform `readyState == "ended"` condition, and `stops` counts the explicit
`track.stop()` calls made by the code. -/
structure Track where
  tid : Nat
  kind : TrackKind
  enabled : Bool
  ended : Bool
  stops : Nat
deriving DecidableEq, Repr

/-- A `MediaStream`: an ordered collection of track ids. -/
structure StreamObj where
  sid : Nat
  trackIds : List Nat
deriving DecidableEq, Repr

/-- The media heap: every track ever acquired from the devices and every
stream object, plus allocation counters for fresh ids. -/
structure MediaHeap where
  tracks : List Track
  streams : List StreamObj
  nextTid : Nat
  nextSid : Nat
deriving DecidableEq, Repr

def MediaHeap.getTrack (h : MediaHeap) (tid : Nat) : Option Track :=
  h.tracks.find? (fun t => t.tid == tid)

def MediaHeap.updateTrack (h : MediaHeap) (tid : Nat) (f : Track → Track) : MediaHeap :=
  { h with tracks := h.tracks.map (fun t => if t.tid == tid then f t else t) }

def MediaHeap.getStream (h : MediaHeap) (sid : Nat) : Option StreamObj :=
  h.streams.find? (fun st => st.sid == sid)

def MediaHeap.updateStream (h : MediaHeap) (sid : Nat) (f : StreamObj → StreamObj) : MediaHeap :=
  { h with streams := h.streams.map (fun st => if st.sid == sid then f st else st) }

/-- `track.stop()`: the track ends and the explicit-stop counter increases. -/
def MediaHeap.stopTrack (h : MediaHeap) (tid : Nat) : MediaHeap :=
  h.updateTrack tid (fun t => { t with ended := true, stops := t.stops + 1 })

/-- The platform ends a track (end-of-stream), without a `stop()` call. -/
def MediaHeap.endTrack (h : MediaHeap) (tid : Nat) : MediaHeap :=
  h.updateTrack tid (fun t => { t with ended := true })

/-- `getDisplayMedia({video:true})` / one track of `getUserMedia`: a fresh
live, enabled track. -/
def MediaHeap.allocTrack (h : MediaHeap) (k : TrackKind) : MediaHeap × Nat :=
  ({ h with tracks := h.tracks ++ [⟨h.nextTid, k, true, false, 0⟩],
            nextTid := h.nextTid + 1 }, h.nextTid)

/-- Fresh tracks of the given kinds, ids starting at `n`. -/
def freshTracks (n : Nat) (kinds : List TrackKind) : List Track :=
  match kinds with
  | [] => []
  | k :: ks => ⟨n, k, true, false, 0⟩ :: freshTracks (n + 1) ks

/-- `getUserMedia` success: allocate one fresh live enabled track per
requested kind and a fresh stream holding them. -/
def MediaHeap.acquireStream (h : MediaHeap) (kinds : List TrackKind) : MediaHeap × Nat :=
  let ts := freshTracks h.nextTid kinds
  ({ h with tracks := h.tracks ++ ts,
            streams := h.streams ++ [⟨h.nextSid, ts.map Track.tid⟩],
            nextTid := h.nextTid + kinds.length,
            nextSid := h.nextSid + 1 }, h.nextSid)

def MediaHeap.streamTrackIds (h : MediaHeap) (sid : Nat) : List Nat :=
  match h.getStream sid with
  | some st => st.trackIds
  | none => []

/-- `stream.getTracks()`. -/
def MediaHeap.streamTracks (h : MediaHeap) (sid : Nat) : List Track :=
  (h.streamTrackIds sid).filterMap h.getTrack

/-- `stream.getAudioTracks()` / `stream.getVideoTracks()`. -/
def MediaHeap.tracksOfKind (h : MediaHeap) (sid : Nat) (k : TrackKind) : List Track :=
  (h.streamTracks sid).filter (fun t => decide (t.kind = k))

/-- `stream.getAudioTracks()[0]` / `stream.getVideoTracks()[0]`. -/
def MediaHeap.firstTrackOfKind (h : MediaHeap) (sid : Nat) (k : TrackKind) : Option Track :=
  (h.tracksOfKind sid k).head?

/-- Tracks of a kind in the stream that are live (not ended, never stopped)
and enabled. -/
def MediaHeap.activeTracksOfKind (h : MediaHeap) (sid : Nat) (k : TrackKind) : List Track :=
  (h.streamTracks sid).filter
    (fun t => decide (t.kind = k) && t.enabled && !t.ended && t.stops == 0)

/-- `stream.removeTrack(track)`. -/
def MediaHeap.removeTrackFromStream (h : MediaHeap) (sid tid : Nat) : MediaHeap :=
  h.updateStream sid (fun st => { st with trackIds := st.trackIds.filter (fun x => x != tid) })

/-- `stream.addTrack(track)` (a no-op when the track is already present). -/
def MediaHeap.addTrackToStream (h : MediaHeap) (sid tid : Nat) : MediaHeap :=
  h.updateStream sid
    (fun st => if tid ∈ st.trackIds then st else { st with trackIds := st.trackIds ++ [tid] })

/-- `stream.getTracks().forEach(track => track.stop())`. -/
def MediaHeap.stopStreamTracks (h : MediaHeap) (sid : Nat) : MediaHeap :=
  (h.streamTrackIds sid).foldl (fun acc tid => acc.stopTrack tid) h

/-- Allocation ids in use are below the allocation counters. -/
def MediaHeap.wf (h : MediaHeap) : Bool :=
  h.tracks.all (fun t => t.tid < h.nextTid) && h.streams.all (fun st => st.sid < h.nextSid)

def emptyHeap : MediaHeap := ⟨[], [], 0, 0⟩

/-- `ConnectionState` enum from `src/types`. -/
inductive ConnectionState where
  | disconnected
  | connecting
  | connected
  | error
deriving DecidableEq, Repr

structure SessionInfo where
  id : String
  name : String
  description : String
deriving DecidableEq, Repr

/-- `CallState` from `src/types` (participants kept as user ids). -/
structure CallState where
  sessionId : Option String
  session : Option SessionInfo
  connectionState : ConnectionState
  error : Option String
  participants : List String
deriving DecidableEq, Repr

def initialCallState : CallState :=
  { sessionId := none, session := none, connectionState := .disconnected,
    error := none, participants := [] }

/-- `MediaState` from `src/types`; the stream handles are heap ids. -/
structure MediaState where
  localStream : Option Nat
  remoteStream : Option Nat
  audioEnabled : Bool
  videoEnabled : Bool
  isSharingScreen : Bool
deriving DecidableEq, Repr

def initialMediaState : MediaState :=
  { localStream := none, remoteStream := none, audioEnabled := true,
    videoEnabled := true, isSharingScreen := false }

/-- An `RTCRtpSender`: it carries the currently outgoing track. -/
structure Sender where
  trackId : Option Nat
deriving DecidableEq, Repr

/-- An `RTCPeerConnection`: the senders created by `addTrack`, whether the
remote and local descriptions have been applied, and the count of ICE
candidates successfully added. -/
structure PC where
  senders : List Sender
  remoteDescSet : Bool
  localDescSet : Bool
  candidates : Nat
deriving DecidableEq, Repr

inductive MsgType where
  | offer
  | answer
  | iceCandidate
deriving DecidableEq, Repr

/-- An inbound `WebSocketMessage`.  The payload is abstracted to its
environment-determined validity: `wellFormed = false` models a malformed SDP
or candidate whose application throws. -/
structure InMsg where
  mtype : MsgType
  wellFormed : Bool
  fromId : String
deriving DecidableEq, Repr

/-- A message written to the WebSocket, after `sendWebSocketMessage` fills in
the `from`/`to` fields. -/
structure SentMsg where
  mtype : MsgType
  wellFormed : Bool
  fromId : Option String
  toId : Option String
deriving DecidableEq, Repr

/-- Response of the session service (`POST studio/create` / `studio/join`). -/
structure SvcData where
  id : String
  name : String
  description : String
  host : String
deriving DecidableEq, Repr

/-!  Variant 1: the explicit-initiate `CallProvider` (first variant in
`CallContext.tsx`). -/

/-- State of the variant-1 provider: React state, the refs, the WebSocket
(`wsPresent` = `wsRef.current != null`, `wsReady` = `readyState == OPEN`),
the sent-message log, and the pending `screenTrack.onended` closure
(`onEnded = (sender index, screen track id)` when installed). -/
structure St where
  heap : MediaHeap
  callState : CallState
  mediaState : MediaState
  localStreamRef : Option Nat
  remoteStreamRef : Option Nat
  pcRef : Option PC
  wsPresent : Bool
  wsReady : Bool
  isInitiator : Bool
  remotePeerId : Option String
  userId : Option String
  outbox : List SentMsg
  onEnded : Option (Nat × Nat)
deriving DecidableEq, Repr

/-- `sendWebSocketMessage`: only when the socket is OPEN; rewrites
`from := user?.id` and `to := message.to || remotePeerId` (the empty string
is falsy in JS). -/
def sendWs (s : St) (ty : MsgType) (wf : Bool) (toField : Option String) : St :=
  if s.wsReady then
    let toV : Option String :=
      match toField with
      | some t => if t == "" then s.remotePeerId else some t
      | none => s.remotePeerId
    { s with outbox := s.outbox ++ [⟨ty, wf, s.userId, toV⟩] }
  else s

/-- `createPeerConnection`: a fresh `RTCPeerConnection` with one sender per
local track; stored in both the ref and the state variable. -/
def createPeerConnection (s : St) : St :=
  let senders : List Sender :=
    match s.localStreamRef with
    | some sid => (s.heap.streamTrackIds sid).map (fun tid => ⟨some tid⟩)
    | none => []
  { s with pcRef := some ⟨senders, false, false, 0⟩ }

/-- `handleOffer`: lazily create a peer connection when none exists, then
(inside try/catch) set the remote description, create and set the answer, and
send it addressed to the offering peer.  A malformed offer throws at
`setRemoteDescription`; the catch only logs. -/
def handleOffer (s : St) (wf : Bool) (fromP : String) : St :=
  let s := if s.pcRef.isNone then createPeerConnection s else s
  match s.pcRef with
  | none => s
  | some pc =>
    if wf then
      let s := { s with pcRef := some { pc with remoteDescSet := true, localDescSet := true } }
      sendWs s .answer true (some fromP)
    else s

/-- `handleAnswer`: set the remote description; the catch only logs. -/
def handleAnswer (s : St) (wf : Bool) : St :=
  match s.pcRef with
  | none => s
  | some pc =>
    if wf then { s with pcRef := some { pc with remoteDescSet := true } } else s

/-- `handleIceCandidate`: `addIceCandidate` succeeds when the candidate is
well formed and a remote description has been set; otherwise it throws and
the catch only logs. -/
def handleIceCandidate (s : St) (wf : Bool) : St :=
  match s.pcRef with
  | none => s
  | some pc =>
    if wf && pc.remoteDescSet then
      { s with pcRef := some { pc with candidates := pc.candidates + 1 } }
    else s

/-- `ws.onmessage` of variant 1: drop loopback envelopes
(`message.from === user?.id`), record the sender as the remote peer, then
dispatch on the message type. -/
def procMessage (s : St) (m : InMsg) : St :=
  if some m.fromId = s.userId then s
  else
    let s := { s with remotePeerId := some m.fromId }
    match m.mtype with
    | .offer => handleOffer s m.wellFormed m.fromId
    | .answer => handleAnswer s m.wellFormed
    | .iceCandidate => handleIceCandidate s m.wellFormed

def procMsgs (s : St) (ms : List InMsg) : St :=
  ms.foldl procMessage s

/-- The processing of an inbound message throws inside the variant-1
handler's try block: a malformed offer or answer fails at
`setRemoteDescription`, a candidate fails when malformed or when no remote
description has been set yet (out-of-order delivery). -/
def raisesOn (pc : PC) (m : InMsg) : Bool :=
  match m.mtype with
  | .offer => !m.wellFormed
  | .answer => !m.wellFormed
  | .iceCandidate => !m.wellFormed || !pc.remoteDescSet

/-- `cleanupMediaDevices` of variant 1: stop every track of the local and
remote streams, drop the refs, close and drop the peer connection, and reset
the media state. -/
def cleanupMediaDevices (s : St) : St :=
  let s :=
    match s.localStreamRef with
    | some sid => { s with heap := s.heap.stopStreamTracks sid, localStreamRef := none }
    | none => s
  let s :=
    match s.remoteStreamRef with
    | some sid => { s with heap := s.heap.stopStreamTracks sid, remoteStreamRef := none }
    | none => s
  { s with pcRef := none, mediaState := initialMediaState }

/-- `initializeMediaDevices` of variant 1: clean up, then `getUserMedia`.
The environment outcome `gum` is `some kinds` for a stream with fresh tracks
of those kinds, `none` for a rejection (which propagates: the second
component is the resolved flag). -/
def initializeMediaDevices (s : St) (gum : Option (List TrackKind)) : St × Bool :=
  let s := cleanupMediaDevices s
  match gum with
  | none => (s, false)
  | some kinds =>
    let r := s.heap.acquireStream kinds
    ({ s with heap := r.1, localStreamRef := some r.2,
              mediaState := { s.mediaState with
                              localStream := some r.2,
                              audioEnabled := true, videoEnabled := true } },
      true)

/-- `connectWebSocket`: a fresh socket is stored in the ref; it is not yet
OPEN (the `onopen` callback fires later). -/
def connectWebSocket (s : St) : St :=
  { s with wsPresent := true, wsReady := false }

/-- `createSession` of variant 1.  There is no try/catch: a `getUserMedia`
or session-service rejection propagates to the caller with the state left as
it was at the failure point.  `some id` is a resolved promise. -/
def createSessionV1 (s : St) (sessionName sessionDescription : String)
    (gum : Option (List TrackKind)) (svc : Option SvcData) : St × Option String :=
  let s := { s with callState := { initialCallState with connectionState := .connecting } }
  let r := initializeMediaDevices s gum
  if r.2 then
    let s := r.1
    match svc with
    | none => (s, none)
    | some data =>
      let s := { s with isInitiator := true }
      let s := createPeerConnection s
      let s := connectWebSocket s
      let s := { s with callState :=
        { sessionId := some data.id,
          session := some ⟨data.id, data.name, data.description⟩,
          connectionState := .connected,
          error := none,
          participants := (match s.userId with | some u => [u] | none => []) } }
      (s, some data.id)
  else (r.1, none)

/-- `joinSession` of variant 1; like `createSessionV1` but with the responder
role and the host added to the participants.  `true` is a resolved promise. -/
def joinSessionV1 (s : St) (sessionId : String)
    (gum : Option (List TrackKind)) (svc : Option SvcData) : St × Bool :=
  let s := { s with callState :=
    { initialCallState with sessionId := some sessionId, connectionState := .connecting } }
  let r := initializeMediaDevices s gum
  if r.2 then
    let s := r.1
    match svc with
    | none => (s, false)
    | some data =>
      let s := { s with isInitiator := false }
      let s := createPeerConnection s
      let s := connectWebSocket s
      let s := { s with callState :=
        { sessionId := some data.id,
          session := some ⟨data.id, data.name, data.description⟩,
          connectionState := .connected,
          error := none,
          participants := (match s.userId with | some u => [u] | none => []) ++ [data.host] } }
      (s, true)
  else (r.1, false)

/-- `leaveSession` of variant 1: close and drop the socket, clean up the
media devices, drop the peer connection, reset both public states and the
role flag. -/
def leaveSession (s : St) : St :=
  let s := { s with wsPresent := false, wsReady := false }
  let s := cleanupMediaDevices s
  { s with pcRef := none, callState := initialCallState,
           mediaState := initialMediaState, isInitiator := false }

/-- `toggleAudio` of variant 1: flip the enabled flag of the first audio
track of the local stream and mirror it into `mediaState.audioEnabled`;
a no-op without a stream or without an audio track. -/
def toggleAudio (s : St) : St :=
  match s.localStreamRef with
  | none => s
  | some sid =>
    match s.heap.firstTrackOfKind sid .audio with
    | none => s
    | some t =>
      { s with heap := s.heap.updateTrack t.tid (fun u => { u with enabled := !u.enabled }),
               mediaState := { s.mediaState with audioEnabled := !t.enabled } }

/-- `toggleVideo` of variant 1 (same shape on the first video track). -/
def toggleVideo (s : St) : St :=
  match s.localStreamRef with
  | none => s
  | some sid =>
    match s.heap.firstTrackOfKind sid .video with
    | none => s
    | some t =>
      { s with heap := s.heap.updateTrack t.tid (fun u => { u with enabled := !u.enabled }),
               mediaState := { s.mediaState with videoEnabled := !t.enabled } }

/-- `getSenders().find(s => s.track && s.track.kind === "video")`, as an
index into the sender list. -/
def senderHasVideo (h : MediaHeap) (snd : Sender) : Bool :=
  match snd.trackId with
  | some tid =>
    match h.getTrack tid with
    | some t => decide (t.kind = .video)
    | none => false
  | none => false

def findVideoSenderIdx (h : MediaHeap) : List Sender → Option Nat
  | [] => none
  | snd :: rest =>
    if senderHasVideo h snd then some 0
    else (findVideoSenderIdx h rest).map (· + 1)

/-- `toggleScreenShare` of variant 1.  `displayOk` / `camOk` are the
environment outcomes of `getDisplayMedia` / `getUserMedia({video:true})`; a
rejection is caught by the surrounding try/catch, which only logs.
Start path: acquire a display track, replace the outgoing video sender track
with it, swap it into the local stream, install the `onended` closure and set
`isSharingScreen`.  Stop path: acquire a fresh camera track, replace it onto
the sender, swap it into the stream, stop the old (screen) track once and
clear `isSharingScreen`. -/
def toggleScreenShare (s : St) (displayOk camOk : Bool) : St :=
  if !s.mediaState.isSharingScreen then
    if displayOk then
      let r := s.heap.allocTrack .video
      let s := { s with heap := r.1 }
      let screenTid := r.2
      match s.localStreamRef, s.pcRef with
      | some sid, some pc =>
        match s.heap.firstTrackOfKind sid .video with
        | some videoTrack =>
          match findVideoSenderIdx s.heap pc.senders with
          | some idx =>
            let pc := { pc with senders := pc.senders.set idx ⟨some screenTid⟩ }
            let h := (s.heap.removeTrackFromStream sid videoTrack.tid).addTrackToStream sid screenTid
            { s with pcRef := some pc, heap := h, onEnded := some (idx, screenTid),
                     mediaState := { s.mediaState with isSharingScreen := true } }
          | none => s
        | none => s
      | _, _ => s
    else s
  else
    if camOk then
      let r := s.heap.allocTrack .video
      let s := { s with heap := r.1 }
      let camTid := r.2
      match s.localStreamRef, s.pcRef with
      | some sid, some pc =>
        match findVideoSenderIdx s.heap pc.senders with
        | some idx =>
          let pc := { pc with senders := pc.senders.set idx ⟨some camTid⟩ }
          let s := { s with pcRef := some pc }
          match s.heap.firstTrackOfKind sid .video with
          | some oldTrack =>
            let h := ((s.heap.removeTrackFromStream sid oldTrack.tid).addTrackToStream
                        sid camTid).stopTrack oldTrack.tid
            { s with heap := h,
                     mediaState := { s.mediaState with isSharingScreen := false } }
          | none => s
        | none => { s with mediaState := { s.mediaState with isSharingScreen := false } }
      | _, _ => s
    else s

/-- The `screenTrack.onended` closure of variant 1, fired when the platform
ends the display-capture track (user revokes sharing from the OS UI).  The
track becomes ended without any `stop()` call; the handler reacquires a
camera track (`camOk` is the `getUserMedia` outcome; a rejection aborts the
handler before `isSharingScreen` is reset), replaces it onto the captured
sender and swaps it into the local stream. -/
def screenEndedEvent (s : St) (camOk : Bool) : St :=
  match s.onEnded with
  | none => s
  | some (idx, screenTid) =>
    match s.heap.getTrack screenTid with
    | none => s
    | some t =>
      if t.ended || t.stops != 0 then s
      else
        let s := { s with heap := s.heap.endTrack screenTid, onEnded := none }
        if camOk then
          let r := s.heap.allocTrack .video
          let s := { s with heap := r.1 }
          let camTid := r.2
          match s.pcRef with
          | some pc =>
            let pc := { pc with senders := pc.senders.set idx ⟨some camTid⟩ }
            let s := { s with pcRef := some pc }
            let h :=
              match s.localStreamRef with
              | some sid => (s.heap.removeTrackFromStream sid screenTid).addTrackToStream sid camTid
              | none => s.heap
            { s with heap := h,
                     mediaState := { s.mediaState with isSharingScreen := false } }
          | none => s
        else s

/-- The outgoing video tracks on the peer connection's senders that are
still live (not ended, never stopped). -/
def outgoingActiveVideoTracks (h : MediaHeap) (pc : PC) : List Track :=
  (pc.senders.filterMap (fun snd => snd.trackId.bind h.getTrack)).filter
    (fun t => decide (t.kind = .video) && !t.ended && t.stops == 0)

/-- A convenient variant-1 initial provider state with a logged-in user. -/
def initialSt : St :=
  { heap := emptyHeap, callState := initialCallState, mediaState := initialMediaState,
    localStreamRef := none, remoteStreamRef := none, pcRef := none,
    wsPresent := false, wsReady := false, isInitiator := false,
    remotePeerId := none, userId := some "a", outbox := [], onEnded := none }

/-!  Variant 2: the auto-negotiate `CallProvider` (second variant in
`CallContext.tsx`).  It has no refs and no `remotePeerId`: inbound dispatch
is gated by the `isInitiator` role flag, `onnegotiationneeded` emits offers
only for the initiator, and `createSession`/`joinSession` catch failures and
reset `callState` to an error snapshot before rethrowing. -/

/-- State of the variant-2 provider. -/
structure St2 where
  heap : MediaHeap
  callState : CallState
  mediaState : MediaState
  pc : Option PC
  wsPresent : Bool
  wsReady : Bool
  isInitiator : Bool
  userId : Option String
  outbox : List SentMsg
deriving DecidableEq, Repr

/-- Variant-2 `sendWebSocketMessage`: the message is serialised as built by
the caller (`from: user?.id || ''`, no `to` field). -/
def sendWs2 (s : St2) (ty : MsgType) (wf : Bool) : St2 :=
  if s.wsReady then
    { s with outbox := s.outbox ++ [⟨ty, wf, some (s.userId.getD ""), none⟩] }
  else s

/-- Variant-2 `handleOffer`: answer the offer; on failure the catch sets the
non-fatal error snapshot `Failed to process incoming call`. -/
def handleOffer2 (s : St2) (wf : Bool) : St2 :=
  match s.pc with
  | none => s
  | some pc =>
    if wf then
      sendWs2 { s with pc := some { pc with remoteDescSet := true, localDescSet := true } }
        .answer true
    else
      { s with callState := { s.callState with
                              error := some "Failed to process incoming call",
                              connectionState := .error } }

/-- Variant-2 `handleAnswer`. -/
def handleAnswer2 (s : St2) (wf : Bool) : St2 :=
  match s.pc with
  | none => s
  | some pc =>
    if wf then { s with pc := some { pc with remoteDescSet := true } }
    else
      { s with callState := { s.callState with
                              error := some "Failed to establish connection",
                              connectionState := .error } }

/-- Variant-2 `handleIceCandidate`: the catch only logs. -/
def handleIceCandidate2 (s : St2) (wf : Bool) : St2 :=
  match s.pc with
  | none => s
  | some pc =>
    if wf && pc.remoteDescSet then
      { s with pc := some { pc with candidates := pc.candidates + 1 } }
    else s

/-- Variant-2 `ws.onmessage`: offers are handled only by a non-initiator
with a peer connection, answers only by the initiator, candidates whenever a
peer connection exists. -/
def procMessage2 (s : St2) (m : InMsg) : St2 :=
  match m.mtype with
  | .offer => if s.pc.isSome && !s.isInitiator then handleOffer2 s m.wellFormed else s
  | .answer => if s.pc.isSome && s.isInitiator then handleAnswer2 s m.wellFormed else s
  | .iceCandidate => if s.pc.isSome then handleIceCandidate2 s m.wellFormed else s

/-- Variant-2 `pc.onnegotiationneeded`: only the initiator creates, sets and
sends an offer; the responder does nothing. -/
def negotiationNeeded2 (s : St2) : St2 :=
  match s.pc with
  | none => s
  | some pc =>
    if s.isInitiator then
      sendWs2 { s with pc := some { pc with localDescSet := true } } .offer true
    else s

/-- An asynchronous event hitting the variant-2 provider: an inbound
envelope or a negotiation-needed callback. -/
inductive Ev2 where
  | inbound (m : InMsg)
  | negotiationNeeded
deriving DecidableEq, Repr

def stepEv2 (s : St2) : Ev2 → St2
  | .inbound m => procMessage2 s m
  | .negotiationNeeded => negotiationNeeded2 s

def runEv2 (s : St2) (evs : List Ev2) : St2 :=
  evs.foldl stepEv2 s

/-- Variant-2 `cleanupMediaDevices`: stop the tracks of
`mediaState.localStream`, close and drop the peer connection (the media
state itself is not reset here). -/
def cleanupMediaDevices2 (s : St2) : St2 :=
  let s :=
    match s.mediaState.localStream with
    | some sid => { s with heap := s.heap.stopStreamTracks sid }
    | none => s
  { s with pc := none }

/-- Variant-2 `initializeMediaDevices`: on a `getUserMedia` rejection the
catch publishes a media-permission error snapshot and rethrows. -/
def initializeMediaDevices2 (s : St2) (gum : Option (List TrackKind)) : St2 × Bool :=
  let s := cleanupMediaDevices2 s
  match gum with
  | none =>
    ({ s with callState := { s.callState with
        error := some "Failed to access camera and microphone. Please check permissions.",
        connectionState := .error } }, false)
  | some kinds =>
    let r := s.heap.acquireStream kinds
    ({ s with heap := r.1,
              mediaState := { s.mediaState with
                              localStream := some r.2,
                              audioEnabled := true, videoEnabled := true } },
      true)

/-- Variant-2 `initializePeerConnection` on the freshly acquired stream. -/
def initializePeerConnection2 (s : St2) : St2 :=
  let senders : List Sender :=
    match s.mediaState.localStream with
    | some sid => (s.heap.streamTrackIds sid).map (fun tid => ⟨some tid⟩)
    | none => []
  { s with pc := some ⟨senders, false, false, 0⟩ }

/-- Variant-2 `createSession`: set Connecting, acquire media, require an auth
token, call the session service; any failure is caught, `callState` is reset
to the create-failure error snapshot and the rejection is rethrown
(`none`). -/
def createSession2 (s : St2) (sessionName sessionDescription : String)
    (gum : Option (List TrackKind)) (token : Option String) (svc : Option SvcData) :
    St2 × Option String :=
  let s := { s with callState := { initialCallState with connectionState := .connecting } }
  let r := initializeMediaDevices2 s gum
  let fail : St2 → St2 × Option String := fun s =>
    ({ s with callState := { initialCallState with
        error := some "Failed to create session. Please try again.",
        connectionState := .error } }, none)
  if r.2 then
    let s := r.1
    match token with
    | none => fail s
    | some _ =>
      match svc with
      | none => fail s
      | some data =>
        let s := { s with isInitiator := true }
        let s := initializePeerConnection2 s
        let s := { s with wsPresent := true, wsReady := false }
        let s := { s with callState :=
          { sessionId := some data.id,
            session := some ⟨data.id, data.name, data.description⟩,
            connectionState := .connected,
            error := none,
            participants := (match s.userId with | some u => [u] | none => []) } }
        (s, some data.id)
  else fail r.1

/-- Variant-2 `joinSession` (responder role, join-failure snapshot, host
added to the participants). -/
def joinSession2 (s : St2) (sessionId : String)
    (gum : Option (List TrackKind)) (token : Option String) (svc : Option SvcData) :
    St2 × Bool :=
  let s := { s with callState :=
    { initialCallState with sessionId := some sessionId, connectionState := .connecting } }
  let r := initializeMediaDevices2 s gum
  let fail : St2 → St2 × Bool := fun s =>
    ({ s with callState := { initialCallState with
        error := some "Failed to join session. Please try again.",
        connectionState := .error } }, false)
  if r.2 then
    let s := r.1
    match token with
    | none => fail s
    | some _ =>
      match svc with
      | none => fail s
      | some data =>
        let s := { s with isInitiator := false }
        let s := initializePeerConnection2 s
        let s := { s with wsPresent := true, wsReady := false }
        let s := { s with callState :=
          { sessionId := some data.id,
            session := some ⟨data.id, data.name, data.description⟩,
            connectionState := .connected,
            error := none,
            participants := (match s.userId with | some u => [u] | none => []) ++ [data.host] } }
        (s, true)
  else fail r.1

/-- A small established-session fixture for variant 1: one audio and one
video track in the local stream, one sender per track. -/
def fixtureSt : St :=
  { initialSt with
    heap := ⟨[⟨0, .audio, true, false, 0⟩, ⟨1, .video, true, false, 0⟩], [⟨0, [0, 1]⟩], 2, 1⟩,
    localStreamRef := some 0,
    pcRef := some ⟨[⟨some 0⟩, ⟨some 1⟩], false, false, 0⟩ }

/-- A convenient variant-2 initial provider state. -/
def initialSt2 : St2 :=
  { heap := emptyHeap, callState := initialCallState, mediaState := initialMediaState,
    pc := none, wsPresent := false, wsReady := false, isInitiator := false,
    userId := none, outbox := [] }

/-!  Generic list helpers used by the heap transport lemmas. -/

theorem filterMapOptMap {α β : Type} (g : β → β) (F : α → Option β) (l : List α) :
    (l.filterMap fun a => (F a).map g) = (l.filterMap F).map g := by
  induction l with
  | nil => rfl
  | cons a l ih => cases h : F a <;> simp [List.filterMap_cons, h, ih]

theorem findMapOfPred {α : Type} (g : α → α) (p : α → Bool)
    (hp : ∀ a, p (g a) = p a) (l : List α) :
    (l.map g).find? p = (l.find? p).map g := by
  rw [List.find?_map]
  rw [show (p ∘ g) = p from funext hp]

theorem findAppendNoneLeft {α : Type} {p : α → Bool} {l₁ : List α}
    (h : l₁.find? p = none) (l₂ : List α) :
    (l₁ ++ l₂).find? p = l₂.find? p := by
  rw [List.find?_append, h, Option.none_or]

/-!  Heap transport lemmas. -/

theorem MediaHeap.wf_iff {h : MediaHeap} :
    h.wf = true ↔ ((∀ t ∈ h.tracks, t.tid < h.nextTid) ∧
      (∀ st ∈ h.streams, st.sid < h.nextSid)) := by
  simp [MediaHeap.wf, List.all_eq_true]

theorem MediaHeap.getTrack_tid {h : MediaHeap} {tid : Nat} {t : Track}
    (hg : h.getTrack tid = some t) : t.tid = tid := by
  have := List.find?_some hg
  simpa using this

theorem MediaHeap.getTrack_mem {h : MediaHeap} {tid : Nat} {t : Track}
    (hg : h.getTrack tid = some t) : t ∈ h.tracks :=
  List.mem_of_find?_eq_some hg

theorem MediaHeap.getTrack_lt {h : MediaHeap} {tid : Nat} {t : Track}
    (hwf : h.wf = true) (hg : h.getTrack tid = some t) : tid < h.nextTid := by
  have h1 := (MediaHeap.wf_iff.mp hwf).1 t (MediaHeap.getTrack_mem hg)
  rw [MediaHeap.getTrack_tid hg] at h1
  exact h1

theorem MediaHeap.getTrack_ge {h : MediaHeap} {tid : Nat}
    (hwf : h.wf = true) (hle : h.nextTid ≤ tid) : h.getTrack tid = none := by
  apply List.find?_eq_none.mpr
  intro t ht
  have := (MediaHeap.wf_iff.mp hwf).1 t ht
  simp only [beq_iff_eq]
  omega

theorem MediaHeap.getStream_sid {h : MediaHeap} {sid : Nat} {st : StreamObj}
    (hg : h.getStream sid = some st) : st.sid = sid := by
  have := List.find?_some hg
  simpa using this

theorem MediaHeap.getStream_ge {h : MediaHeap} {sid : Nat}
    (hwf : h.wf = true) (hle : h.nextSid ≤ sid) : h.getStream sid = none := by
  apply List.find?_eq_none.mpr
  intro st hst
  have := (MediaHeap.wf_iff.mp hwf).2 st hst
  simp only [beq_iff_eq]
  omega

theorem MediaHeap.getTrack_updateTrack (h : MediaHeap) (tid : Nat) (f : Track → Track)
    (hf : ∀ u, (f u).tid = u.tid) (tid' : Nat) :
    (h.updateTrack tid f).getTrack tid' =
      (h.getTrack tid').map (fun u => if u.tid == tid then f u else u) := by
  unfold MediaHeap.updateTrack MediaHeap.getTrack
  exact findMapOfPred _ _ (fun u => by by_cases hu : u.tid == tid <;> simp [hu, hf]) _

theorem MediaHeap.getStream_updateTrack (h : MediaHeap) (tid : Nat) (f : Track → Track)
    (sid : Nat) : (h.updateTrack tid f).getStream sid = h.getStream sid := rfl

theorem MediaHeap.streamTracks_updateTrack (h : MediaHeap) (tid : Nat) (f : Track → Track)
    (hf : ∀ u, (f u).tid = u.tid) (sid : Nat) :
    (h.updateTrack tid f).streamTracks sid =
      (h.streamTracks sid).map (fun u => if u.tid == tid then f u else u) := by
  unfold MediaHeap.streamTracks MediaHeap.streamTrackIds
  rw [MediaHeap.getStream_updateTrack]
  cases h.getStream sid with
  | none => rfl
  | some st =>
    show st.trackIds.filterMap (h.updateTrack tid f).getTrack = _
    rw [show (h.updateTrack tid f).getTrack
          = fun i => (h.getTrack i).map (fun u => if u.tid == tid then f u else u) from
        funext (MediaHeap.getTrack_updateTrack h tid f hf)]
    exact filterMapOptMap _ _ _

theorem MediaHeap.firstTrackOfKind_updateTrack (h : MediaHeap) (tid : Nat)
    (f : Track → Track) (hf : ∀ u, (f u).tid = u.tid) (hk : ∀ u, (f u).kind = u.kind)
    (sid : Nat) (k : TrackKind) :
    (h.updateTrack tid f).firstTrackOfKind sid k =
      (h.firstTrackOfKind sid k).map (fun u => if u.tid == tid then f u else u) := by
  unfold MediaHeap.firstTrackOfKind MediaHeap.tracksOfKind
  rw [MediaHeap.streamTracks_updateTrack h tid f hf]
  rw [List.filter_map]
  rw [show ((fun t => decide (t.kind = k)) ∘ fun u => if u.tid == tid then f u else u)
        = fun t => decide (t.kind = k) from
      funext fun u => by by_cases hu : u.tid = tid <;> simp [hu, hk]]
  exact List.head?_map _ _

theorem MediaHeap.wf_updateTrack (h : MediaHeap) (tid : Nat) (f : Track → Track)
    (hf : ∀ u, (f u).tid = u.tid) : (h.updateTrack tid f).wf = h.wf := by
  unfold MediaHeap.wf MediaHeap.updateTrack
  simp only [List.all_map]
  rw [show ((fun t => decide (t.tid < h.nextTid)) ∘ fun t => if t.tid == tid then f t else t)
        = fun t => decide (t.tid < h.nextTid) from
      funext fun u => by by_cases hu : u.tid = tid <;> simp [hu, hf]]

theorem MediaHeap.getStream_updateStream (h : MediaHeap) (sid : Nat)
    (f : StreamObj → StreamObj) (hf : ∀ st, (f st).sid = st.sid) (sid' : Nat) :
    (h.updateStream sid f).getStream sid' =
      (h.getStream sid').map (fun st => if st.sid == sid then f st else st) := by
  unfold MediaHeap.updateStream MediaHeap.getStream
  exact findMapOfPred _ _ (fun st => by by_cases hs : st.sid == sid <;> simp [hs, hf]) _

theorem MediaHeap.getTrack_updateStream (h : MediaHeap) (sid : Nat)
    (f : StreamObj → StreamObj) (tid : Nat) :
    (h.updateStream sid f).getTrack tid = h.getTrack tid := rfl

theorem MediaHeap.wf_updateStream (h : MediaHeap) (sid : Nat)
    (f : StreamObj → StreamObj) (hf : ∀ st, (f st).sid = st.sid) :
    (h.updateStream sid f).wf = h.wf := by
  unfold MediaHeap.wf MediaHeap.updateStream
  simp only [List.all_map]
  rw [show ((fun st => decide (st.sid < h.nextSid)) ∘ fun st => if st.sid == sid then f st else st)
        = fun st => decide (st.sid < h.nextSid) from
      funext fun st => by by_cases hs : st.sid = sid <;> simp [hs, hf]]

theorem MediaHeap.getTrack_allocTrack_ne (h : MediaHeap) (k : TrackKind) {tid : Nat}
    (hne : tid ≠ h.nextTid) : (h.allocTrack k).1.getTrack tid = h.getTrack tid := by
  unfold MediaHeap.allocTrack MediaHeap.getTrack
  rw [List.find?_append]
  have hsingle : [(⟨h.nextTid, k, true, false, 0⟩ : Track)].find? (fun t => t.tid == tid) = none := by
    apply List.find?_eq_none.mpr
    intro t ht
    simp only [List.mem_singleton] at ht
    subst ht
    simp only [beq_iff_eq]
    omega
  rw [hsingle, Option.or_none]

theorem MediaHeap.getTrack_allocTrack_self (h : MediaHeap) (k : TrackKind)
    (hwf : h.wf = true) :
    (h.allocTrack k).1.getTrack h.nextTid = some ⟨h.nextTid, k, true, false, 0⟩ := by
  have hnone : h.tracks.find? (fun t => t.tid == h.nextTid) = none :=
    MediaHeap.getTrack_ge hwf le_rfl
  unfold MediaHeap.allocTrack MediaHeap.getTrack
  rw [findAppendNoneLeft hnone]
  simp [List.find?]

theorem MediaHeap.getStream_allocTrack (h : MediaHeap) (k : TrackKind) (sid : Nat) :
    (h.allocTrack k).1.getStream sid = h.getStream sid := rfl

theorem MediaHeap.wf_allocTrack (h : MediaHeap) (k : TrackKind) (hwf : h.wf = true) :
    (h.allocTrack k).1.wf = true := by
  rw [MediaHeap.wf_iff]
  obtain ⟨h1, h2⟩ := MediaHeap.wf_iff.mp hwf
  constructor
  · intro t ht
    simp only [MediaHeap.allocTrack, List.mem_append, List.mem_singleton] at ht ⊢
    rcases ht with ht | ht
    · have := h1 t ht
      omega
    · subst ht
      simp
  · intro st hst
    exact h2 st hst

theorem MediaHeap.stopFold_streams (l : List Nat) (h : MediaHeap) :
    (l.foldl (fun acc tid => acc.stopTrack tid) h).streams = h.streams := by
  induction l generalizing h with
  | nil => rfl
  | cons a l ih => rw [List.foldl_cons, ih]; rfl

theorem MediaHeap.stopFold_nextTid (l : List Nat) (h : MediaHeap) :
    (l.foldl (fun acc tid => acc.stopTrack tid) h).nextTid = h.nextTid := by
  induction l generalizing h with
  | nil => rfl
  | cons a l ih => rw [List.foldl_cons, ih]; rfl

theorem MediaHeap.stopFold_nextSid (l : List Nat) (h : MediaHeap) :
    (l.foldl (fun acc tid => acc.stopTrack tid) h).nextSid = h.nextSid := by
  induction l generalizing h with
  | nil => rfl
  | cons a l ih => rw [List.foldl_cons, ih]; rfl

theorem MediaHeap.stopFold_wf (l : List Nat) (h : MediaHeap) :
    (l.foldl (fun acc tid => acc.stopTrack tid) h).wf = h.wf := by
  induction l generalizing h with
  | nil => rfl
  | cons a l ih =>
    rw [List.foldl_cons, ih]
    exact MediaHeap.wf_updateTrack _ _ _ (fun u => rfl)

theorem MediaHeap.stopStreamTracks_wf (h : MediaHeap) (sid : Nat) :
    (h.stopStreamTracks sid).wf = h.wf :=
  MediaHeap.stopFold_wf _ _

theorem cleanup_heap_wf (s : St) :
    (cleanupMediaDevices s).heap.wf = s.heap.wf := by
  unfold cleanupMediaDevices
  rcases hl : s.localStreamRef with _ | sid <;> rcases hr : s.remoteStreamRef with _ | sid' <;>
    simp [hl, hr, MediaHeap.stopStreamTracks_wf]

@[simp]
theorem cleanup_callState (s : St) :
    (cleanupMediaDevices s).callState = s.callState := by
  unfold cleanupMediaDevices
  rcases hl : s.localStreamRef with _ | sid <;> rcases hr : s.remoteStreamRef with _ | sid' <;>
    simp [hl, hr]

@[simp]
theorem cleanup_userId (s : St) :
    (cleanupMediaDevices s).userId = s.userId := by
  unfold cleanupMediaDevices
  rcases hl : s.localStreamRef with _ | sid <;> rcases hr : s.remoteStreamRef with _ | sid' <;>
    simp [hl, hr]

@[simp]
theorem cleanup_wsReady (s : St) :
    (cleanupMediaDevices s).wsReady = s.wsReady := by
  unfold cleanupMediaDevices
  rcases hl : s.localStreamRef with _ | sid <;> rcases hr : s.remoteStreamRef with _ | sid' <;>
    simp [hl, hr]

@[simp]
theorem cleanup_isInitiator (s : St) :
    (cleanupMediaDevices s).isInitiator = s.isInitiator := by
  unfold cleanupMediaDevices
  rcases hl : s.localStreamRef with _ | sid <;> rcases hr : s.remoteStreamRef with _ | sid' <;>
    simp [hl, hr]

@[simp]
theorem initMedia_some_resolved (s : St) (ks : List TrackKind) :
    (initializeMediaDevices s (some ks)).2 = true := rfl

@[simp]
theorem initMedia_some_callState (s : St) (ks : List TrackKind) :
    (initializeMediaDevices s (some ks)).1.callState = s.callState := by
  unfold initializeMediaDevices
  simp

@[simp]
theorem initMedia_some_userId (s : St) (ks : List TrackKind) :
    (initializeMediaDevices s (some ks)).1.userId = s.userId := by
  unfold initializeMediaDevices
  simp

@[simp]
theorem initMedia2_some_resolved (s : St2) (ks : List TrackKind) :
    (initializeMediaDevices2 s (some ks)).2 = true := rfl

/-- C4: an envelope whose `from` field equals the local participant's id is
discarded by `ws.onmessage` with no handler invoked and no state change. -/
theorem c4_loopback_guard (s : St) (m : InMsg) (uid : String)
    (hu : s.userId = some uid) (hf : m.fromId = uid) :
    procMessage s m = s := by
  unfold procMessage
  rw [hu, hf]
  simp

theorem c4_witness :
    procMessage initialSt ⟨.offer, true, "a"⟩ = initialSt :=
  c4_loopback_guard initialSt ⟨.offer, true, "a"⟩ "a" rfl rfl

/-- C10: when `getDisplayMedia` rejects (the user dismisses or denies the
screen picker), `toggleScreenShare` catches and swallows the error and the
whole provider state, in particular `mediaState` and `callState`, is exactly
as before the call; no Error state is published. -/
theorem c10_screen_share_failure_atomic (s : St) (camOk : Bool)
    (h : s.mediaState.isSharingScreen = false) :
    toggleScreenShare s false camOk = s := by
  unfold toggleScreenShare
  rw [h]
  simp

theorem c10_witness : toggleScreenShare initialSt false true = initialSt :=
  c10_screen_share_failure_atomic initialSt true rfl

/-- C3 (code bug): after `createSession`, starting a screen share removes
the camera video track (tid 1) from the local stream without stopping it;
`leaveSession` then only stops the tracks still held in the streams, so this
acquired device track is left live (never ended, zero `stop()` calls), even
though `callState` is correctly reset to the initial state. -/
theorem c3_leaveSession_leaks_camera_track :
    (leaveSession (toggleScreenShare ((createSessionV1 initialSt "s" "d"
        (some [TrackKind.audio, TrackKind.video]) (some ⟨"x", "s", "d", "h"⟩)).1)
        true true)).heap.getTrack 1 = some ⟨1, .video, true, false, 0⟩ ∧
    (leaveSession (toggleScreenShare ((createSessionV1 initialSt "s" "d"
        (some [TrackKind.audio, TrackKind.video]) (some ⟨"x", "s", "d", "h"⟩)).1)
        true true)).callState = initialCallState := by
  constructor
  · decide
  · decide

/-- C6 counterexample: in variant 1 a session-service failure during
`createSession` is propagated as a rejection, but `callState` is left in the
Connecting snapshot with `error = none` — not the claimed Error snapshot. -/
theorem c6_counterexample :
    (createSessionV1 initialSt "s" "d" (some [TrackKind.audio, TrackKind.video]) none).2
      = none ∧
    (createSessionV1 initialSt "s" "d" (some [TrackKind.audio, TrackKind.video]) none).1.callState.connectionState
      = ConnectionState.connecting ∧
    (createSessionV1 initialSt "s" "d" (some [TrackKind.audio, TrackKind.video]) none).1.callState.error
      = none := by
  refine ⟨by decide, by decide, by decide⟩

/-- C6 (amended): when the session-service call fails, `createSession` and
`joinSession` reject in both variants; in the auto-negotiate variant the
catch resets `callState` to an error snapshot (`connectionState = Error`
with the user-presentable failure string), while in the explicit-initiate
variant the state keeps the Connecting snapshot set at entry with no error
string. -/
theorem c6_service_failure_amended (s : St) (s2 : St2) (nm ds sid tk : String)
    (ks : List TrackKind) :
    ((createSessionV1 s nm ds (some ks) none).2 = none ∧
     (createSessionV1 s nm ds (some ks) none).1.callState.connectionState
       = ConnectionState.connecting ∧
     (createSessionV1 s nm ds (some ks) none).1.callState.error = none) ∧
    ((joinSessionV1 s sid (some ks) none).2 = false ∧
     (joinSessionV1 s sid (some ks) none).1.callState.connectionState
       = ConnectionState.connecting ∧
     (joinSessionV1 s sid (some ks) none).1.callState.error = none) ∧
    ((createSession2 s2 nm ds (some ks) (some tk) none).2 = none ∧
     (createSession2 s2 nm ds (some ks) (some tk) none).1.callState =
       { initialCallState with error := some "Failed to create session. Please try again.",
                               connectionState := .error }) ∧
    ((joinSession2 s2 sid (some ks) (some tk) none).2 = false ∧
     (joinSession2 s2 sid (some ks) (some tk) none).1.callState =
       { initialCallState with error := some "Failed to join session. Please try again.",
                               connectionState := .error }) := by
  refine ⟨⟨?_, ?_, ?_⟩, ⟨?_, ?_, ?_⟩, ⟨?_, ?_⟩, ⟨?_, ?_⟩⟩ <;>
    simp [createSessionV1, joinSessionV1, createSession2, joinSession2, initialCallState]

/-- C5: in an established session (peer connection present, envelope from
the session's remote peer), an inbound offer, answer or candidate whose
processing throws is caught by the handler's try/catch with no state change
at all — the session is not terminated — and processing the remaining
messages gives exactly the state they would produce had the bad message
never arrived. -/
theorem c5_bad_message_recovery (s : St) (pc : PC) (m : InMsg) (rest : List InMsg)
    (hpc : s.pcRef = some pc)
    (hself : s.userId ≠ some m.fromId)
    (hpeer : s.remotePeerId = some m.fromId)
    (hbad : raisesOn pc m = true) :
    procMessage s m = s ∧ procMsgs s (m :: rest) = procMsgs s rest := by
  have hmain : procMessage s m = s := by
    unfold procMessage
    rw [if_neg (fun e => hself e.symm)]
    have hupd : { s with remotePeerId := some m.fromId } = s := by
      rw [← hpeer]
    rw [hupd]
    cases hm : m.mtype with
    | offer =>
      have hwf : m.wellFormed = false := by
        unfold raisesOn at hbad
        rw [hm] at hbad
        simpa using hbad
      simp [handleOffer, hpc, hwf]
    | answer =>
      have hwf : m.wellFormed = false := by
        unfold raisesOn at hbad
        rw [hm] at hbad
        simpa using hbad
      simp [handleAnswer, hpc, hwf]
    | iceCandidate =>
      have hwf : (m.wellFormed && pc.remoteDescSet) = false := by
        unfold raisesOn at hbad
        rw [hm] at hbad
        simp at hbad
        rcases hbad with hb | hb <;> simp [hb]
      simp [handleIceCandidate, hpc, hwf]
  refine ⟨hmain, ?_⟩
  unfold procMsgs
  rw [List.foldl_cons, hmain]

theorem c5_witness :
    procMessage { initialSt with pcRef := some ⟨[], false, false, 0⟩, remotePeerId := some "b" }
        ⟨.iceCandidate, true, "b"⟩
      = { initialSt with pcRef := some ⟨[], false, false, 0⟩, remotePeerId := some "b" } ∧
    procMsgs { initialSt with pcRef := some ⟨[], false, false, 0⟩, remotePeerId := some "b" }
        (⟨.iceCandidate, true, "b"⟩ :: [⟨.offer, true, "b"⟩])
      = procMsgs { initialSt with pcRef := some ⟨[], false, false, 0⟩, remotePeerId := some "b" }
        [⟨.offer, true, "b"⟩] :=
  c5_bad_message_recovery _ ⟨[], false, false, 0⟩ _ _ rfl (by decide) rfl (by decide)

/-- C9: an inbound well-formed offer arriving when no peer connection exists
is not dropped: `handleOffer` first constructs a peer connection, then sets
the remote description, creates and sets the local answer, and sends the
Answer envelope with its `to` field set to the offer's `from` participant. -/
theorem c9_lazy_peer_connection (s : St) (fromP : String)
    (hpc : s.pcRef = none) (hws : s.wsReady = true) (hfrom : fromP ≠ "") :
    ∃ pc : PC, (handleOffer s true fromP).pcRef = some pc ∧
      pc.remoteDescSet = true ∧ pc.localDescSet = true ∧
      (handleOffer s true fromP).outbox
        = s.outbox ++ [⟨.answer, true, s.userId, some fromP⟩] := by
  have hbe : (fromP == "") = false := beq_eq_false_iff_ne.mpr hfrom
  unfold handleOffer createPeerConnection sendWs
  rw [hpc]
  simp [hws, hbe]

theorem c9_witness :
    ∃ pc : PC, (handleOffer { initialSt with wsReady := true } true "b").pcRef = some pc ∧
      pc.remoteDescSet = true ∧ pc.localDescSet = true ∧
      (handleOffer { initialSt with wsReady := true } true "b").outbox
        = { initialSt with wsReady := true }.outbox
          ++ [⟨.answer, true, { initialSt with wsReady := true }.userId, some "b"⟩] :=
  c9_lazy_peer_connection { initialSt with wsReady := true } "b" rfl rfl (by decide)

theorem sendWs2_isInitiator (s : St2) (ty : MsgType) (wf : Bool) :
    (sendWs2 s ty wf).isInitiator = s.isInitiator := by
  unfold sendWs2
  split <;> rfl

theorem handleOffer2_isInitiator (s : St2) (wf : Bool) :
    (handleOffer2 s wf).isInitiator = s.isInitiator := by
  unfold handleOffer2
  split
  · rfl
  · split
    · rw [sendWs2_isInitiator]
    · rfl

theorem handleAnswer2_isInitiator (s : St2) (wf : Bool) :
    (handleAnswer2 s wf).isInitiator = s.isInitiator := by
  unfold handleAnswer2
  split
  · rfl
  · split <;> rfl

theorem handleIceCandidate2_isInitiator (s : St2) (wf : Bool) :
    (handleIceCandidate2 s wf).isInitiator = s.isInitiator := by
  unfold handleIceCandidate2
  split
  · rfl
  · split <;> rfl

theorem stepEv2_isInitiator (s : St2) (e : Ev2) :
    (stepEv2 s e).isInitiator = s.isInitiator := by
  cases e with
  | inbound m =>
    show (procMessage2 s m).isInitiator = s.isInitiator
    unfold procMessage2
    cases hmt : m.mtype
    · show (if (s.pc.isSome && !s.isInitiator) = true then handleOffer2 s m.wellFormed
             else s).isInitiator = s.isInitiator
      split
      · exact handleOffer2_isInitiator _ _
      · rfl
    · show (if (s.pc.isSome && s.isInitiator) = true then handleAnswer2 s m.wellFormed
             else s).isInitiator = s.isInitiator
      split
      · exact handleAnswer2_isInitiator _ _
      · rfl
    · show (if s.pc.isSome = true then handleIceCandidate2 s m.wellFormed
             else s).isInitiator = s.isInitiator
      split
      · exact handleIceCandidate2_isInitiator _ _
      · rfl
  | negotiationNeeded =>
    show (negotiationNeeded2 s).isInitiator = s.isInitiator
    unfold negotiationNeeded2
    split
    · rfl
    · split
      · rw [sendWs2_isInitiator]
      · rfl

theorem stepEv2_outbox (s : St2) (e : Ev2) (m : SentMsg)
    (hm : m ∈ (stepEv2 s e).outbox) :
    m ∈ s.outbox ∨ (s.isInitiator = false ∧ m.mtype = .answer) ∨
      (s.isInitiator = true ∧ m.mtype = .offer) := by
  cases e with
  | inbound msg =>
    simp only [stepEv2] at hm
    cases hmt : msg.mtype <;> simp only [procMessage2, hmt] at hm
    · -- offer
      by_cases hc : (s.pc.isSome && !s.isInitiator) = true
      · rw [if_pos hc] at hm
        have hi : s.isInitiator = false := by
          cases hini : s.isInitiator
          · rfl
          · rw [hini] at hc
            simp at hc
        simp only [handleOffer2] at hm
        split at hm
        · exact Or.inl hm
        · split at hm
          · simp only [sendWs2] at hm
            split at hm
            · simp only [List.mem_append, List.mem_singleton] at hm
              rcases hm with hm | hm
              · exact Or.inl hm
              · exact Or.inr (Or.inl ⟨hi, by rw [hm]⟩)
            · exact Or.inl hm
          · exact Or.inl hm
      · rw [if_neg hc] at hm
        exact Or.inl hm
    · -- answer
      by_cases hc : (s.pc.isSome && s.isInitiator) = true
      · rw [if_pos hc] at hm
        simp only [handleAnswer2] at hm
        split at hm
        · exact Or.inl hm
        · split at hm <;> exact Or.inl hm
      · rw [if_neg hc] at hm
        exact Or.inl hm
    · -- candidate
      by_cases hc : s.pc.isSome = true
      · rw [if_pos hc] at hm
        simp only [handleIceCandidate2] at hm
        split at hm
        · exact Or.inl hm
        · split at hm <;> exact Or.inl hm
      · rw [if_neg hc] at hm
        exact Or.inl hm
  | negotiationNeeded =>
    simp only [stepEv2] at hm
    simp only [negotiationNeeded2] at hm
    split at hm
    · exact Or.inl hm
    · by_cases hi : s.isInitiator = true
      · rw [if_pos hi] at hm
        simp only [sendWs2] at hm
        split at hm
        · simp only [List.mem_append, List.mem_singleton] at hm
          rcases hm with hm | hm
          · exact Or.inl hm
          · exact Or.inr (Or.inr ⟨hi, by rw [hm]⟩)
        · exact Or.inl hm
      · rw [if_neg hi] at hm
        exact Or.inl hm

theorem runEv2_outbox (evs : List Ev2) : ∀ (s : St2) (m : SentMsg),
    m ∈ (runEv2 s evs).outbox →
    m ∈ s.outbox ∨ (s.isInitiator = false ∧ m.mtype = .answer) ∨
      (s.isInitiator = true ∧ m.mtype = .offer) := by
  induction evs with
  | nil => intro s m hm; exact Or.inl hm
  | cons e evs ih =>
    intro s m hm
    have hstep := ih (stepEv2 s e) m (by simpa [runEv2] using hm)
    rw [stepEv2_isInitiator] at hstep
    rcases hstep with hmem | hrest
    · exact stepEv2_outbox s e m hmem
    · exact Or.inr hrest

/-- C8: in the auto-negotiate variant, over any sequence of inbound
envelopes and negotiation-needed callbacks, a session flagged Initiator
(role set by `createSession`) never emits an Answer — inbound offers are
no-ops for it — and a session flagged Responder (role set by `joinSession`)
never emits an Offer — its negotiation-needed handler does nothing. -/
theorem c8_role_invariant (s : St2) (evs : List Ev2) (m : SentMsg)
    (hm : m ∈ (runEv2 s evs).outbox) (hnew : m ∉ s.outbox) :
    (s.isInitiator = true →
      m.mtype ≠ .answer ∧ ∀ m' : InMsg, m'.mtype = .offer → procMessage2 s m' = s) ∧
    (s.isInitiator = false →
      m.mtype ≠ .offer ∧ negotiationNeeded2 s = s) := by
  have h := runEv2_outbox evs s m hm
  constructor
  · intro hi
    constructor
    · rcases h with h | ⟨hf, _⟩ | ⟨_, ho⟩
      · exact absurd h hnew
      · rw [hi] at hf; cases hf
      · rw [ho]; intro hc; cases hc
    · intro m' hm'
      unfold procMessage2
      rw [hm', hi]
      simp
  · intro hi
    constructor
    · rcases h with h | ⟨_, ha⟩ | ⟨ht, _⟩
      · exact absurd h hnew
      · rw [ha]; intro hc; cases hc
      · rw [hi] at ht; cases ht
    · unfold negotiationNeeded2
      split
      · rfl
      · rw [if_neg (by rw [hi]; exact Bool.false_ne_true)]

theorem c8_witness :
    (⟨.answer, true, some "", none⟩ : SentMsg) ∈
      (runEv2 { initialSt2 with pc := some ⟨[], false, false, 0⟩, wsReady := true }
        [Ev2.inbound ⟨.offer, true, "b"⟩]).outbox ∧
    (({ initialSt2 with pc := some ⟨[], false, false, 0⟩, wsReady := true } : St2).isInitiator
        = true →
      (⟨.answer, true, some "", none⟩ : SentMsg).mtype ≠ .answer ∧
      ∀ m' : InMsg, m'.mtype = .offer →
        procMessage2 { initialSt2 with pc := some ⟨[], false, false, 0⟩, wsReady := true } m'
        = { initialSt2 with pc := some ⟨[], false, false, 0⟩, wsReady := true }) ∧
    (({ initialSt2 with pc := some ⟨[], false, false, 0⟩, wsReady := true } : St2).isInitiator
        = false →
      (⟨.answer, true, some "", none⟩ : SentMsg).mtype ≠ .offer ∧
      negotiationNeeded2 { initialSt2 with pc := some ⟨[], false, false, 0⟩, wsReady := true }
      = { initialSt2 with pc := some ⟨[], false, false, 0⟩, wsReady := true }) :=
  ⟨by decide,
   (c8_role_invariant _ [Ev2.inbound ⟨.offer, true, "b"⟩] ⟨.answer, true, some "", none⟩
      (by decide) (by decide)).1,
   (c8_role_invariant _ [Ev2.inbound ⟨.offer, true, "b"⟩] ⟨.answer, true, some "", none⟩
      (by decide) (by decide)).2⟩

theorem toggleAudio_step (s : St) (sid : Nat) (t : Track)
    (h1 : s.localStreamRef = some sid)
    (h2 : s.heap.firstTrackOfKind sid .audio = some t) :
    toggleAudio s = { s with
      heap := s.heap.updateTrack t.tid (fun u => { u with enabled := !u.enabled }),
      mediaState := { s.mediaState with audioEnabled := !t.enabled } } := by
  simp only [toggleAudio, h1, h2]

theorem toggleAudio_inv (s : St) (sid : Nat) (t : Track)
    (h1 : s.localStreamRef = some sid)
    (h2 : s.heap.firstTrackOfKind sid .audio = some t) :
    (toggleAudio s).localStreamRef = some sid ∧
    (toggleAudio s).heap.firstTrackOfKind sid .audio = some { t with enabled := !t.enabled } ∧
    (toggleAudio s).mediaState.audioEnabled = !t.enabled := by
  rw [toggleAudio_step s sid t h1 h2]
  refine ⟨h1, ?_, rfl⟩
  show (s.heap.updateTrack t.tid fun u => { u with enabled := !u.enabled }).firstTrackOfKind
      sid .audio = _
  rw [MediaHeap.firstTrackOfKind_updateTrack s.heap t.tid
        (fun u => { u with enabled := !u.enabled }) (fun u => rfl) (fun u => rfl) sid .audio, h2]
  simp

theorem toggleAudio_parity_aux (n : Nat) : ∀ (s : St) (sid : Nat) (t : Track),
    s.localStreamRef = some sid →
    s.heap.firstTrackOfKind sid .audio = some t →
    s.mediaState.audioEnabled = t.enabled →
    ((toggleAudio^[n] s).localStreamRef = some sid ∧
     (toggleAudio^[n] s).heap.firstTrackOfKind sid .audio
       = some (if n % 2 = 1 then { t with enabled := !t.enabled } else t) ∧
     (toggleAudio^[n] s).mediaState.audioEnabled
       = (if n % 2 = 1 then !t.enabled else t.enabled)) := by
  induction n with
  | zero =>
    intro s sid t h1 h2 h3
    simpa [h1, h2] using h3
  | succ n ih =>
    intro s sid t h1 h2 h3
    rw [Function.iterate_succ_apply]
    obtain ⟨g1, g2, g3⟩ := toggleAudio_inv s sid t h1 h2
    obtain ⟨k1, k2, k3⟩ := ih (toggleAudio s) sid { t with enabled := !t.enabled } g1 g2 g3
    refine ⟨k1, ?_, ?_⟩
    · rw [k2]
      rcases Nat.mod_two_eq_zero_or_one n with hpar | hpar
      · have hs : (n + 1) % 2 = 1 := by omega
        simp [hpar, hs]
      · have hs : ¬((n + 1) % 2 = 1) := by omega
        simp [hpar, hs]
    · rw [k3]
      rcases Nat.mod_two_eq_zero_or_one n with hpar | hpar
      · have hs : (n + 1) % 2 = 1 := by omega
        simp [hpar, hs]
      · have hs : ¬((n + 1) % 2 = 1) := by omega
        simp [hpar, hs]

/-- C1: on a session whose local stream has an audio track (its enabled flag
mirrored in `mediaState.audioEnabled`, as the provider maintains), `n`
`toggleAudio` calls leave `audioEnabled` equal to the initial flag XOR
(n mod 2); in particular `toggleAudio` is an involution on the observable
enabled state. -/
theorem c1_toggleAudio_parity (s : St) (sid : Nat) (t : Track) (n : Nat)
    (h1 : s.localStreamRef = some sid)
    (h2 : s.heap.firstTrackOfKind sid .audio = some t)
    (h3 : s.mediaState.audioEnabled = t.enabled) :
    (toggleAudio^[n] s).mediaState.audioEnabled
      = (if n % 2 = 1 then !s.mediaState.audioEnabled else s.mediaState.audioEnabled) := by
  obtain ⟨-, -, k3⟩ := toggleAudio_parity_aux n s sid t h1 h2 h3
  rw [k3, h3]

theorem c1_witness :
    (toggleAudio^[3] { initialSt with
        heap := ⟨[⟨0, .audio, true, false, 0⟩], [⟨0, [0]⟩], 1, 1⟩,
        localStreamRef := some 0 }).mediaState.audioEnabled
      = (if 3 % 2 = 1 then
          !({ initialSt with
              heap := ⟨[⟨0, .audio, true, false, 0⟩], [⟨0, [0]⟩], 1, 1⟩,
              localStreamRef := some 0 } : St).mediaState.audioEnabled
         else ({ initialSt with
              heap := ⟨[⟨0, .audio, true, false, 0⟩], [⟨0, [0]⟩], 1, 1⟩,
              localStreamRef := some 0 } : St).mediaState.audioEnabled) :=
  c1_toggleAudio_parity _ 0 ⟨0, .audio, true, false, 0⟩ 3 rfl (by decide) rfl

theorem acquireStream_av (h : MediaHeap) (hwf : h.wf = true) :
    ((h.acquireStream [.audio, .video]).1.activeTracksOfKind h.nextSid .audio).length = 1 ∧
    ((h.acquireStream [.audio, .video]).1.activeTracksOfKind h.nextSid .video).length = 1 := by
  have hts : freshTracks h.nextTid [TrackKind.audio, TrackKind.video]
      = [⟨h.nextTid, .audio, true, false, 0⟩, ⟨h.nextTid + 1, .video, true, false, 0⟩] := by
    simp [freshTracks]
  have hF1 : (h.acquireStream [.audio, .video]).1.getStream h.nextSid
      = some ⟨h.nextSid, [h.nextTid, h.nextTid + 1]⟩ := by
    show ((h.streams ++
        [(⟨h.nextSid, (freshTracks h.nextTid [.audio, .video]).map Track.tid⟩ : StreamObj)]).find?
        (fun st => st.sid == h.nextSid))
      = some ⟨h.nextSid, [h.nextTid, h.nextTid + 1]⟩
    rw [findAppendNoneLeft (MediaHeap.getStream_ge hwf le_rfl)]
    rw [hts]
    simp [List.find?]
  have hF2 : (h.acquireStream [.audio, .video]).1.getTrack h.nextTid
      = some ⟨h.nextTid, .audio, true, false, 0⟩ := by
    show ((h.tracks ++ freshTracks h.nextTid [.audio, .video]).find?
        (fun t => t.tid == h.nextTid))
      = some ⟨h.nextTid, .audio, true, false, 0⟩
    rw [findAppendNoneLeft (MediaHeap.getTrack_ge hwf le_rfl)]
    rw [hts]
    simp [List.find?]
  have hF3 : (h.acquireStream [.audio, .video]).1.getTrack (h.nextTid + 1)
      = some ⟨h.nextTid + 1, .video, true, false, 0⟩ := by
    show ((h.tracks ++ freshTracks h.nextTid [.audio, .video]).find?
        (fun t => t.tid == h.nextTid + 1))
      = some ⟨h.nextTid + 1, .video, true, false, 0⟩
    rw [findAppendNoneLeft (MediaHeap.getTrack_ge hwf (Nat.le_succ _))]
    rw [hts]
    have hne : (h.nextTid == h.nextTid + 1) = false := by
      simp only [beq_eq_false_iff_ne]
      omega
    simp [List.find?, hne]
  have hstream : (h.acquireStream [.audio, .video]).1.streamTracks h.nextSid
      = [⟨h.nextTid, .audio, true, false, 0⟩, ⟨h.nextTid + 1, .video, true, false, 0⟩] := by
    unfold MediaHeap.streamTracks MediaHeap.streamTrackIds
    rw [hF1]
    simp [List.filterMap_cons, hF2, hF3]
  constructor <;> · unfold MediaHeap.activeTracksOfKind
                    rw [hstream]
                    simp [List.filter]

theorem initMedia_av_spec (s : St) (hwf : s.heap.wf = true) :
    (initializeMediaDevices s (some [.audio, .video])).1.localStreamRef
      = some (cleanupMediaDevices s).heap.nextSid ∧
    (initializeMediaDevices s (some [.audio, .video])).1.mediaState.localStream
      = some (cleanupMediaDevices s).heap.nextSid ∧
    ((initializeMediaDevices s (some [.audio, .video])).1.heap.activeTracksOfKind
      (cleanupMediaDevices s).heap.nextSid .audio).length = 1 ∧
    ((initializeMediaDevices s (some [.audio, .video])).1.heap.activeTracksOfKind
      (cleanupMediaDevices s).heap.nextSid .video).length = 1 := by
  have hwfc : (cleanupMediaDevices s).heap.wf = true := by
    rw [cleanup_heap_wf]
    exact hwf
  obtain ⟨ha, hv⟩ := acquireStream_av (cleanupMediaDevices s).heap hwfc
  exact ⟨rfl, rfl, ha, hv⟩

theorem createSessionV1_some_parts (s : St) (nm ds : String) (ks : List TrackKind)
    (data : SvcData) :
    (createSessionV1 s nm ds (some ks) (some data)).2 = some data.id ∧
    (createSessionV1 s nm ds (some ks) (some data)).1.callState.connectionState
      = ConnectionState.connected ∧
    (createSessionV1 s nm ds (some ks) (some data)).1.heap
      = (initializeMediaDevices
          { s with callState := { initialCallState with connectionState := .connecting } }
          (some ks)).1.heap ∧
    (createSessionV1 s nm ds (some ks) (some data)).1.mediaState.localStream
      = (initializeMediaDevices
          { s with callState := { initialCallState with connectionState := .connecting } }
          (some ks)).1.mediaState.localStream := by
  refine ⟨?_, ?_, ?_, ?_⟩ <;> simp [createSessionV1, createPeerConnection, connectWebSocket]

/-- C2: a successful `createSession` run (media acquisition returns the
one-audio-one-video stream requested by the constraints, and the session
service resolves) ends with `connectionState = Connected` and a non-null
`mediaState.localStream` holding exactly one active (live, enabled) audio
track and one active video track. -/
theorem c2_createSession_success (s : St) (nm ds : String) (data : SvcData)
    (hwf : s.heap.wf = true) :
    (createSessionV1 s nm ds (some [.audio, .video]) (some data)).2 = some data.id ∧
    (createSessionV1 s nm ds (some [.audio, .video]) (some data)).1.callState.connectionState
      = ConnectionState.connected ∧
    ∃ sid, (createSessionV1 s nm ds (some [.audio, .video]) (some data)).1.mediaState.localStream
        = some sid ∧
      ((createSessionV1 s nm ds (some [.audio, .video]) (some data)).1.heap.activeTracksOfKind
        sid .audio).length = 1 ∧
      ((createSessionV1 s nm ds (some [.audio, .video]) (some data)).1.heap.activeTracksOfKind
        sid .video).length = 1 := by
  obtain ⟨hr2, hconn, hheap, hls⟩ := createSessionV1_some_parts s nm ds [.audio, .video] data
  obtain ⟨g1, g2, g3, g4⟩ := initMedia_av_spec
    { s with callState := { initialCallState with connectionState := .connecting } } hwf
  refine ⟨hr2, hconn,
    (cleanupMediaDevices
      { s with callState := { initialCallState with connectionState := .connecting } }).heap.nextSid,
    ?_, ?_, ?_⟩
  · rw [hls]
    exact g2
  · rw [hheap]
    exact g3
  · rw [hheap]
    exact g4

theorem c2_witness :
    (createSessionV1 initialSt "s" "d" (some [.audio, .video])
        (some ⟨"x", "s", "d", "h"⟩)).2 = some (⟨"x", "s", "d", "h"⟩ : SvcData).id ∧
    (createSessionV1 initialSt "s" "d" (some [.audio, .video])
        (some ⟨"x", "s", "d", "h"⟩)).1.callState.connectionState
      = ConnectionState.connected ∧
    ∃ sid, (createSessionV1 initialSt "s" "d" (some [.audio, .video])
        (some ⟨"x", "s", "d", "h"⟩)).1.mediaState.localStream = some sid ∧
      ((createSessionV1 initialSt "s" "d" (some [.audio, .video])
        (some ⟨"x", "s", "d", "h"⟩)).1.heap.activeTracksOfKind sid .audio).length = 1 ∧
      ((createSessionV1 initialSt "s" "d" (some [.audio, .video])
        (some ⟨"x", "s", "d", "h"⟩)).1.heap.activeTracksOfKind sid .video).length = 1 :=
  c2_createSession_success initialSt "s" "d" ⟨"x", "s", "d", "h"⟩ (by decide)

theorem screenShare_start_eq
    (s : St) (sid aTid vTid : Nat) (pc : PC) (ta tv : Track)
    (hshare : s.mediaState.isSharingScreen = false)
    (href : s.localStreamRef = some sid)
    (hpc : s.pcRef = some pc)
    (hsenders : pc.senders = [⟨some aTid⟩, ⟨some vTid⟩])
    (hstream : s.heap.getStream sid = some ⟨sid, [aTid, vTid]⟩)
    (hta : s.heap.getTrack aTid = some ta) (hka : ta.kind = .audio)
    (htv : s.heap.getTrack vTid = some tv) (hkv : tv.kind = .video)
    (hwf : s.heap.wf = true) (camOk : Bool) :
    toggleScreenShare s true camOk
      = { s with
          heap := ((s.heap.allocTrack TrackKind.video).1.removeTrackFromStream sid
                      tv.tid).addTrackToStream sid s.heap.nextTid,
          pcRef := some { pc with
            senders := [Sender.mk (some aTid), Sender.mk (some s.heap.nextTid)] },
          onEnded := some (1, s.heap.nextTid),
          mediaState := { s.mediaState with isSharingScreen := true } } := by
  have haLT : aTid < s.heap.nextTid := MediaHeap.getTrack_lt hwf hta
  have hvLT : vTid < s.heap.nextTid := MediaHeap.getTrack_lt hwf htv
  have htaA : (s.heap.allocTrack TrackKind.video).1.getTrack aTid = some ta := by
    rw [MediaHeap.getTrack_allocTrack_ne s.heap TrackKind.video (by omega)]
    exact hta
  have htvA : (s.heap.allocTrack TrackKind.video).1.getTrack vTid = some tv := by
    rw [MediaHeap.getTrack_allocTrack_ne s.heap TrackKind.video (by omega)]
    exact htv
  have hgsA : (s.heap.allocTrack TrackKind.video).1.getStream sid
      = some ⟨sid, [aTid, vTid]⟩ := by
    rw [MediaHeap.getStream_allocTrack]
    exact hstream
  have hfv : (s.heap.allocTrack TrackKind.video).1.firstTrackOfKind sid TrackKind.video
      = some tv := by
    unfold MediaHeap.firstTrackOfKind MediaHeap.tracksOfKind MediaHeap.streamTracks
      MediaHeap.streamTrackIds
    rw [hgsA]
    simp [List.filterMap_cons, htaA, htvA, hka, hkv]
  have hfind : findVideoSenderIdx (s.heap.allocTrack TrackKind.video).1
      [Sender.mk (some aTid), Sender.mk (some vTid)] = some 1 := by
    simp [findVideoSenderIdx, senderHasVideo, htaA, htvA, hka, hkv]
  simp [toggleScreenShare, hshare, href, hpc, hsenders, hfv, hfind, List.set]
  exact ⟨rfl, rfl⟩

/-- C7 (amended): starting a screen share on an established session (one
audio and one video sender, one audio and one video track in the local
stream) and then stopping it — through `toggleScreenShare` or through the
display track's end-of-stream — restores `isSharingScreen = false` and
leaves exactly one live outgoing video track on the senders (the freshly
reacquired camera track).  The display-capture track ends up inactive in
both paths and is never double-stopped: the user-initiated stop path calls
`stop()` on it exactly once, while the end-of-stream path leaves it
platform-ended with zero explicit `stop()` calls. -/
theorem c7_screen_share_roundtrip_amended
    (s : St) (sid aTid vTid : Nat) (pc : PC) (ta tv : Track)
    (hshare : s.mediaState.isSharingScreen = false)
    (href : s.localStreamRef = some sid)
    (hpc : s.pcRef = some pc)
    (hsenders : pc.senders = [⟨some aTid⟩, ⟨some vTid⟩])
    (hstream : s.heap.getStream sid = some ⟨sid, [aTid, vTid]⟩)
    (hta : s.heap.getTrack aTid = some ta) (hka : ta.kind = .audio)
    (htv : s.heap.getTrack vTid = some tv) (hkv : tv.kind = .video)
    (hwf : s.heap.wf = true) :
    (toggleScreenShare s true true).mediaState.isSharingScreen = true ∧
    ((toggleScreenShare (toggleScreenShare s true true) true true).mediaState.isSharingScreen
        = false ∧
     (toggleScreenShare (toggleScreenShare s true true) true true).heap.getTrack s.heap.nextTid
        = some ⟨s.heap.nextTid, .video, true, true, 1⟩ ∧
     ∃ pc2, (toggleScreenShare (toggleScreenShare s true true) true true).pcRef = some pc2 ∧
       (outgoingActiveVideoTracks
         (toggleScreenShare (toggleScreenShare s true true) true true).heap pc2).length = 1) ∧
    ((screenEndedEvent (toggleScreenShare s true true) true).mediaState.isSharingScreen
        = false ∧
     (screenEndedEvent (toggleScreenShare s true true) true).heap.getTrack s.heap.nextTid
        = some ⟨s.heap.nextTid, .video, true, true, 0⟩ ∧
     ∃ pc3, (screenEndedEvent (toggleScreenShare s true true) true).pcRef = some pc3 ∧
       (outgoingActiveVideoTracks
         (screenEndedEvent (toggleScreenShare s true true) true).heap pc3).length = 1) := by
  have htaid : ta.tid = aTid := MediaHeap.getTrack_tid hta
  have htvid : tv.tid = vTid := MediaHeap.getTrack_tid htv
  have haLT : aTid < s.heap.nextTid := MediaHeap.getTrack_lt hwf hta
  have hvLT : vTid < s.heap.nextTid := MediaHeap.getTrack_lt hwf htv
  have hav : aTid ≠ vTid := by
    intro e
    rw [e, htv] at hta
    injection hta with h'
    rw [← h'] at hka
    rw [hka] at hkv
    cases hkv
  rw [screenShare_start_eq s sid aTid vTid pc ta tv hshare href hpc hsenders hstream hta
      hka htv hkv hwf true]
  -- facts about the heap after the display-track allocation
  have htaA : (s.heap.allocTrack TrackKind.video).1.getTrack aTid = some ta := by
    rw [MediaHeap.getTrack_allocTrack_ne s.heap TrackKind.video (by omega)]
    exact hta
  have hgsA : (s.heap.allocTrack TrackKind.video).1.getStream sid
      = some ⟨sid, [aTid, vTid]⟩ := by
    rw [MediaHeap.getStream_allocTrack]
    exact hstream
  have hAwf : (s.heap.allocTrack TrackKind.video).1.wf = true :=
    MediaHeap.wf_allocTrack s.heap TrackKind.video hwf
  -- facts about the heap after the stream swap (remove camera, add screen)
  have hBa : (((s.heap.allocTrack TrackKind.video).1.removeTrackFromStream sid
      tv.tid).addTrackToStream sid s.heap.nextTid).getTrack aTid = some ta := htaA
  have hBT : (((s.heap.allocTrack TrackKind.video).1.removeTrackFromStream sid
      tv.tid).addTrackToStream sid s.heap.nextTid).getTrack s.heap.nextTid
      = some ⟨s.heap.nextTid, TrackKind.video, true, false, 0⟩ :=
    MediaHeap.getTrack_allocTrack_self s.heap TrackKind.video hwf
  have hBwf : (((s.heap.allocTrack TrackKind.video).1.removeTrackFromStream sid
      tv.tid).addTrackToStream sid s.heap.nextTid).wf = true := by
    unfold MediaHeap.addTrackToStream MediaHeap.removeTrackFromStream
    rw [MediaHeap.wf_updateStream _ _ _ (fun st => by split <;> rfl)]
    rw [MediaHeap.wf_updateStream _ sid
        (fun st => { st with trackIds := st.trackIds.filter (fun x => x != tv.tid) })
        (fun st => rfl)]
    exact hAwf
  have hgsB : (((s.heap.allocTrack TrackKind.video).1.removeTrackFromStream sid
      tv.tid).addTrackToStream sid s.heap.nextTid).getStream sid
      = some ⟨sid, [aTid, s.heap.nextTid]⟩ := by
    unfold MediaHeap.addTrackToStream MediaHeap.removeTrackFromStream
    rw [MediaHeap.getStream_updateStream _ _ _ (fun st => by split <;> rfl) sid]
    rw [MediaHeap.getStream_updateStream _ sid
        (fun st => { st with trackIds := st.trackIds.filter (fun x => x != tv.tid) })
        (fun st => rfl) sid]
    rw [hgsA]
    have h1 : (aTid != vTid) = true := by
      simp [hav]
    have h2 : (vTid != vTid) = false := by
      simp
    have h3 : ¬ s.heap.nextTid = aTid := by omega
    simp [htvid, h1, h2, h3, List.filter]
  -- facts about the heap after the camera reacquisition of the stop path
  have hCa : ((((s.heap.allocTrack TrackKind.video).1.removeTrackFromStream sid
      tv.tid).addTrackToStream sid s.heap.nextTid).allocTrack TrackKind.video).1.getTrack aTid
      = some ta := by
    rw [MediaHeap.getTrack_allocTrack_ne _ TrackKind.video
        (show aTid ≠ s.heap.nextTid + 1 by omega)]
    exact hBa
  have hCT : ((((s.heap.allocTrack TrackKind.video).1.removeTrackFromStream sid
      tv.tid).addTrackToStream sid s.heap.nextTid).allocTrack TrackKind.video).1.getTrack
      s.heap.nextTid = some ⟨s.heap.nextTid, TrackKind.video, true, false, 0⟩ := by
    rw [MediaHeap.getTrack_allocTrack_ne _ TrackKind.video
        (show s.heap.nextTid ≠ s.heap.nextTid + 1 by omega)]
    exact hBT
  have hCT1 : ((((s.heap.allocTrack TrackKind.video).1.removeTrackFromStream sid
      tv.tid).addTrackToStream sid s.heap.nextTid).allocTrack TrackKind.video).1.getTrack
      (s.heap.nextTid + 1) = some ⟨s.heap.nextTid + 1, TrackKind.video, true, false, 0⟩ :=
    MediaHeap.getTrack_allocTrack_self _ TrackKind.video hBwf
  have hgsC : ((((s.heap.allocTrack TrackKind.video).1.removeTrackFromStream sid
      tv.tid).addTrackToStream sid s.heap.nextTid).allocTrack TrackKind.video).1.getStream sid
      = some ⟨sid, [aTid, s.heap.nextTid]⟩ := hgsB
  have hfindC : findVideoSenderIdx
      ((((s.heap.allocTrack TrackKind.video).1.removeTrackFromStream sid
        tv.tid).addTrackToStream sid s.heap.nextTid).allocTrack TrackKind.video).1
      [Sender.mk (some aTid), Sender.mk (some s.heap.nextTid)] = some 1 := by
    simp [findVideoSenderIdx, senderHasVideo, hCa, hCT, hka]
  have hfvC : ((((s.heap.allocTrack TrackKind.video).1.removeTrackFromStream sid
      tv.tid).addTrackToStream sid s.heap.nextTid).allocTrack TrackKind.video).1.firstTrackOfKind
      sid TrackKind.video = some ⟨s.heap.nextTid, TrackKind.video, true, false, 0⟩ := by
    unfold MediaHeap.firstTrackOfKind MediaHeap.tracksOfKind MediaHeap.streamTracks
      MediaHeap.streamTrackIds
    rw [hgsC]
    simp [List.filterMap_cons, hCa, hCT, hka]
  -- the user-initiated stop run
  have hstop : toggleScreenShare
      { s with
        heap := ((s.heap.allocTrack TrackKind.video).1.removeTrackFromStream sid
                    tv.tid).addTrackToStream sid s.heap.nextTid,
        pcRef := some { pc with
          senders := [Sender.mk (some aTid), Sender.mk (some s.heap.nextTid)] },
        onEnded := some (1, s.heap.nextTid),
        mediaState := { s.mediaState with isSharingScreen := true } } true true
      = { s with
          heap := ((((((s.heap.allocTrack TrackKind.video).1.removeTrackFromStream sid
                    tv.tid).addTrackToStream sid s.heap.nextTid).allocTrack
                    TrackKind.video).1.removeTrackFromStream sid
                    s.heap.nextTid).addTrackToStream sid
                    (s.heap.nextTid + 1)).stopTrack s.heap.nextTid,
          pcRef := some { pc with
            senders := [Sender.mk (some aTid), Sender.mk (some (s.heap.nextTid + 1))] },
          onEnded := some (1, s.heap.nextTid),
          mediaState := { s.mediaState with isSharingScreen := false } } := by
    simp [toggleScreenShare, href, hfindC, hfvC, List.set]
    exact ⟨rfl, rfl⟩
  -- facts about the final heap of the stop path
  have hDT : (((((((s.heap.allocTrack TrackKind.video).1.removeTrackFromStream sid
      tv.tid).addTrackToStream sid s.heap.nextTid).allocTrack
      TrackKind.video).1.removeTrackFromStream sid
      s.heap.nextTid).addTrackToStream sid (s.heap.nextTid + 1)).stopTrack
      s.heap.nextTid).getTrack s.heap.nextTid
      = some ⟨s.heap.nextTid, TrackKind.video, true, true, 1⟩ := by
    unfold MediaHeap.stopTrack
    rw [MediaHeap.getTrack_updateTrack _ s.heap.nextTid
        (fun t => { t with ended := true, stops := t.stops + 1 }) (fun u => rfl)
        s.heap.nextTid]
    rw [show ((((((s.heap.allocTrack TrackKind.video).1.removeTrackFromStream sid
        tv.tid).addTrackToStream sid s.heap.nextTid).allocTrack
        TrackKind.video).1.removeTrackFromStream sid
        s.heap.nextTid).addTrackToStream sid (s.heap.nextTid + 1)).getTrack s.heap.nextTid
        = some ⟨s.heap.nextTid, TrackKind.video, true, false, 0⟩ from hCT]
    simp
  have hDa : (((((((s.heap.allocTrack TrackKind.video).1.removeTrackFromStream sid
      tv.tid).addTrackToStream sid s.heap.nextTid).allocTrack
      TrackKind.video).1.removeTrackFromStream sid
      s.heap.nextTid).addTrackToStream sid (s.heap.nextTid + 1)).stopTrack
      s.heap.nextTid).getTrack aTid = some ta := by
    unfold MediaHeap.stopTrack
    rw [MediaHeap.getTrack_updateTrack _ s.heap.nextTid
        (fun t => { t with ended := true, stops := t.stops + 1 }) (fun u => rfl) aTid]
    rw [show ((((((s.heap.allocTrack TrackKind.video).1.removeTrackFromStream sid
        tv.tid).addTrackToStream sid s.heap.nextTid).allocTrack
        TrackKind.video).1.removeTrackFromStream sid
        s.heap.nextTid).addTrackToStream sid (s.heap.nextTid + 1)).getTrack aTid
        = some ta from hCa]
    simp [htaid, show ¬ aTid = s.heap.nextTid by omega]
  have hDT1 : (((((((s.heap.allocTrack TrackKind.video).1.removeTrackFromStream sid
      tv.tid).addTrackToStream sid s.heap.nextTid).allocTrack
      TrackKind.video).1.removeTrackFromStream sid
      s.heap.nextTid).addTrackToStream sid (s.heap.nextTid + 1)).stopTrack
      s.heap.nextTid).getTrack (s.heap.nextTid + 1)
      = some ⟨s.heap.nextTid + 1, TrackKind.video, true, false, 0⟩ := by
    unfold MediaHeap.stopTrack
    rw [MediaHeap.getTrack_updateTrack _ s.heap.nextTid
        (fun t => { t with ended := true, stops := t.stops + 1 }) (fun u => rfl)
        (s.heap.nextTid + 1)]
    rw [show ((((((s.heap.allocTrack TrackKind.video).1.removeTrackFromStream sid
        tv.tid).addTrackToStream sid s.heap.nextTid).allocTrack
        TrackKind.video).1.removeTrackFromStream sid
        s.heap.nextTid).addTrackToStream sid (s.heap.nextTid + 1)).getTrack
        (s.heap.nextTid + 1)
        = some ⟨s.heap.nextTid + 1, TrackKind.video, true, false, 0⟩ from hCT1]
    simp [show ¬ s.heap.nextTid + 1 = s.heap.nextTid by omega]
  -- facts about the heap of the end-of-stream path
  have hET : ((((s.heap.allocTrack TrackKind.video).1.removeTrackFromStream sid
      tv.tid).addTrackToStream sid s.heap.nextTid).endTrack s.heap.nextTid).getTrack
      s.heap.nextTid = some ⟨s.heap.nextTid, TrackKind.video, true, true, 0⟩ := by
    unfold MediaHeap.endTrack
    rw [MediaHeap.getTrack_updateTrack _ s.heap.nextTid
        (fun t => { t with ended := true }) (fun u => rfl) s.heap.nextTid]
    rw [hBT]
    simp
  have hETa : ((((s.heap.allocTrack TrackKind.video).1.removeTrackFromStream sid
      tv.tid).addTrackToStream sid s.heap.nextTid).endTrack s.heap.nextTid).getTrack aTid
      = some ta := by
    unfold MediaHeap.endTrack
    rw [MediaHeap.getTrack_updateTrack _ s.heap.nextTid
        (fun t => { t with ended := true }) (fun u => rfl) aTid]
    rw [hBa]
    simp [htaid, show ¬ aTid = s.heap.nextTid by omega]
  have hEwf : ((((s.heap.allocTrack TrackKind.video).1.removeTrackFromStream sid
      tv.tid).addTrackToStream sid s.heap.nextTid).endTrack s.heap.nextTid).wf = true := by
    unfold MediaHeap.endTrack
    rw [MediaHeap.wf_updateTrack _ s.heap.nextTid (fun t => { t with ended := true })
        (fun u => rfl)]
    exact hBwf
  have hFa : (((((((s.heap.allocTrack TrackKind.video).1.removeTrackFromStream sid
      tv.tid).addTrackToStream sid s.heap.nextTid).endTrack s.heap.nextTid).allocTrack
      TrackKind.video).1.removeTrackFromStream sid
      s.heap.nextTid).addTrackToStream sid (s.heap.nextTid + 1)).getTrack aTid
      = some ta := by
    show (((((s.heap.allocTrack TrackKind.video).1.removeTrackFromStream sid
        tv.tid).addTrackToStream sid s.heap.nextTid).endTrack
        s.heap.nextTid).allocTrack TrackKind.video).1.getTrack aTid = some ta
    rw [MediaHeap.getTrack_allocTrack_ne _ TrackKind.video
        (show aTid ≠ s.heap.nextTid + 1 by omega)]
    exact hETa
  have hFT : (((((((s.heap.allocTrack TrackKind.video).1.removeTrackFromStream sid
      tv.tid).addTrackToStream sid s.heap.nextTid).endTrack s.heap.nextTid).allocTrack
      TrackKind.video).1.removeTrackFromStream sid
      s.heap.nextTid).addTrackToStream sid (s.heap.nextTid + 1)).getTrack s.heap.nextTid
      = some ⟨s.heap.nextTid, TrackKind.video, true, true, 0⟩ := by
    show (((((s.heap.allocTrack TrackKind.video).1.removeTrackFromStream sid
        tv.tid).addTrackToStream sid s.heap.nextTid).endTrack
        s.heap.nextTid).allocTrack TrackKind.video).1.getTrack s.heap.nextTid
      = some ⟨s.heap.nextTid, TrackKind.video, true, true, 0⟩
    rw [MediaHeap.getTrack_allocTrack_ne _ TrackKind.video
        (show s.heap.nextTid ≠ s.heap.nextTid + 1 by omega)]
    exact hET
  have hFT1 : (((((((s.heap.allocTrack TrackKind.video).1.removeTrackFromStream sid
      tv.tid).addTrackToStream sid s.heap.nextTid).endTrack s.heap.nextTid).allocTrack
      TrackKind.video).1.removeTrackFromStream sid
      s.heap.nextTid).addTrackToStream sid (s.heap.nextTid + 1)).getTrack
      (s.heap.nextTid + 1)
      = some ⟨s.heap.nextTid + 1, TrackKind.video, true, false, 0⟩ :=
    MediaHeap.getTrack_allocTrack_self _ TrackKind.video hEwf
  -- the end-of-stream run
  have hended : screenEndedEvent
      { s with
        heap := ((s.heap.allocTrack TrackKind.video).1.removeTrackFromStream sid
                    tv.tid).addTrackToStream sid s.heap.nextTid,
        pcRef := some { pc with
          senders := [Sender.mk (some aTid), Sender.mk (some s.heap.nextTid)] },
        onEnded := some (1, s.heap.nextTid),
        mediaState := { s.mediaState with isSharingScreen := true } } true
      = { s with
          heap := ((((((s.heap.allocTrack TrackKind.video).1.removeTrackFromStream sid
                    tv.tid).addTrackToStream sid s.heap.nextTid).endTrack
                    s.heap.nextTid).allocTrack TrackKind.video).1.removeTrackFromStream sid
                    s.heap.nextTid).addTrackToStream sid (s.heap.nextTid + 1),
          pcRef := some { pc with
            senders := [Sender.mk (some aTid), Sender.mk (some (s.heap.nextTid + 1))] },
          onEnded := none,
          mediaState := { s.mediaState with isSharingScreen := false } } := by
    simp [screenEndedEvent, href, hBT, List.set]
    exact ⟨rfl, rfl⟩
  refine ⟨rfl, ⟨?_, ?_, ?_⟩, ⟨?_, ?_, ?_⟩⟩
  · rw [hstop]
  · rw [hstop]
    exact hDT
  · rw [hstop]
    refine ⟨_, rfl, ?_⟩
    unfold outgoingActiveVideoTracks
    simp [hDa, hDT1, hka]
  · rw [hended]
  · rw [hended]
    exact hFT
  · rw [hended]
    refine ⟨_, rfl, ?_⟩
    unfold outgoingActiveVideoTracks
    simp [hFa, hFT1, hka]

/-- C7 counterexample: in the end-of-stream path (start a screen share,
then the display track ends via the OS UI), the display-capture track is
never explicitly stopped: it ends with `stops = 0`, not the "exactly once
(not zero times)" the claim states for this path. -/
theorem c7_counterexample :
    (screenEndedEvent (toggleScreenShare fixtureSt true true) true).mediaState.isSharingScreen
      = false ∧
    (screenEndedEvent (toggleScreenShare fixtureSt true true) true).heap.getTrack 2
      = some ⟨2, .video, true, true, 0⟩ :=
  ⟨by decide, by decide⟩

theorem c7_witness :
    fixtureSt.mediaState.isSharingScreen = false ∧
    fixtureSt.localStreamRef = some 0 ∧
    fixtureSt.pcRef = some ⟨[⟨some 0⟩, ⟨some 1⟩], false, false, 0⟩ ∧
    (⟨[⟨some 0⟩, ⟨some 1⟩], false, false, 0⟩ : PC).senders = [⟨some 0⟩, ⟨some 1⟩] ∧
    fixtureSt.heap.getStream 0 = some ⟨0, [0, 1]⟩ ∧
    fixtureSt.heap.getTrack 0 = some ⟨0, .audio, true, false, 0⟩ ∧
    (⟨0, .audio, true, false, 0⟩ : Track).kind = .audio ∧
    fixtureSt.heap.getTrack 1 = some ⟨1, .video, true, false, 0⟩ ∧
    (⟨1, .video, true, false, 0⟩ : Track).kind = .video ∧
    fixtureSt.heap.wf = true ∧
    ((toggleScreenShare fixtureSt true true).mediaState.isSharingScreen = true ∧
     ((toggleScreenShare (toggleScreenShare fixtureSt true true) true true).mediaState.isSharingScreen
        = false ∧
      (toggleScreenShare (toggleScreenShare fixtureSt true true) true true).heap.getTrack 2
        = some ⟨2, .video, true, true, 1⟩ ∧
      ∃ pc2, (toggleScreenShare (toggleScreenShare fixtureSt true true) true true).pcRef
          = some pc2 ∧
        (outgoingActiveVideoTracks
          (toggleScreenShare (toggleScreenShare fixtureSt true true) true true).heap
          pc2).length = 1) ∧
     ((screenEndedEvent (toggleScreenShare fixtureSt true true) true).mediaState.isSharingScreen
        = false ∧
      (screenEndedEvent (toggleScreenShare fixtureSt true true) true).heap.getTrack 2
        = some ⟨2, .video, true, true, 0⟩ ∧
      ∃ pc3, (screenEndedEvent (toggleScreenShare fixtureSt true true) true).pcRef
          = some pc3 ∧
        (outgoingActiveVideoTracks
          (screenEndedEvent (toggleScreenShare fixtureSt true true) true).heap
          pc3).length = 1)) :=
  ⟨by decide, by decide, by decide, by decide, by decide, by decide, by decide, by decide,
   by decide, by decide,
   c7_screen_share_roundtrip_amended fixtureSt 0 0 1 ⟨[⟨some 0⟩, ⟨some 1⟩], false, false, 0⟩
     ⟨0, .audio, true, false, 0⟩ ⟨1, .video, true, false, 0⟩
     (by decide) (by decide) (by decide) (by decide) (by decide) (by decide) (by decide)
     (by decide) (by decide) (by decide)⟩

end Riverside
